import Mathlib

/-!
Shallow embedding of `src/libsystemd-network/sd-radv.c` (IPv6 Router
Advertisement configuration core) and proofs of the specification claims.

C machine integers are modelled as `Nat` (unsigned) or `Int` (signed);
the error codes returned through negative `int` results are modelled by
the `Errno` inductive and fallible operations return `Except Errno σ`.
Pointers passed by callers are modelled by plain values; a nullable
argument is an `Option`.  The session and prefix structures come from
`radv-internal.h`; only the fields actually touched by the code are kept.
-/

deriving instance DecidableEq for Except

/-- Error kinds appearing in the source: `-EINVAL`, `-EBUSY`, `-ETIME`,
`-EEXIST`, `-ENOMEM`. -/
inductive Errno where
  | EINVAL
  | EBUSY
  | ETIME
  | EEXIST
  | ENOMEM
deriving DecidableEq, Repr

/-- Session states `SD_RADV_STATE_IDLE` and `SD_RADV_STATE_ADVERTISING`
from `radv-internal.h`. -/
inductive RadvState where
  | idle
  | advertising
deriving DecidableEq, Repr

/-- RFC 4191 router preference values from `sd-ndisc.h` (repository header
outside the excerpt); the spec pins Medium = 0 and the wire encoding of
RFC 4191 section 2.1 gives High = 01 and Low = 11. -/
def SD_NDISC_PREFERENCE_LOW : Nat := 3

/-- RFC 4191 Medium preference, numeric 0 (see `SD_NDISC_PREFERENCE_LOW`). -/
def SD_NDISC_PREFERENCE_MEDIUM : Nat := 0

/-- RFC 4191 High preference, numeric 1 (see `SD_NDISC_PREFERENCE_LOW`). -/
def SD_NDISC_PREFERENCE_HIGH : Nat := 1

/-- Router Advertisement flags byte bit for Managed address configuration,
`ND_RA_FLAG_MANAGED` of `netinet/icmp6.h` (bit 7 of the byte). -/
def ND_RA_FLAG_MANAGED : Nat := 0x80

/-- Router Advertisement flags byte bit for Other configuration,
`ND_RA_FLAG_OTHER` of `netinet/icmp6.h` (bit 6 of the byte). -/
def ND_RA_FLAG_OTHER : Nat := 0x40

/-- ND option type tag for a Prefix Information option,
`ND_OPT_PREFIX_INFORMATION` of `netinet/icmp6.h`. -/
def ND_OPT_PREFIX_INFORMATION : Nat := 3

/-- Prefix Information option flag: on-link, `ND_OPT_PI_FLAG_ONLINK`
(bit 7 of the option flags byte). -/
def ND_OPT_PI_FLAG_ONLINK : Nat := 0x80

/-- Prefix Information option flag: autonomous address configuration,
`ND_OPT_PI_FLAG_AUTO` (bit 6 of the option flags byte). -/
def ND_OPT_PI_FLAG_AUTO : Nat := 0x40

/-- The `SET_FLAG(v, flag, b)` macro from `macro.h`: set or clear `flag`
in the byte `v`.  The stored field is a `uint8_t`, so the cleared value is
masked to the byte. -/
def SET_FLAG (v flag : Nat) (b : Bool) : Nat :=
  if b then v ||| flag else v &&& (255 ^^^ flag)

/-- `htobe32` storage: a host-order 32-bit value laid out as its four
bytes in big-endian (network) order, which is how the lifetimes are kept
in the option structure. -/
def be32 (x : Nat) : List Nat :=
  [x / 2 ^ 24 % 256, x / 2 ^ 16 % 256, x / 2 ^ 8 % 256, x % 256]

/-- The wire Prefix Information option `struct radv_prefix_opt` of
`radv-internal.h` (fields in declaration order).  The 128-bit IPv6 address
is a `Nat` below `2 ^ 128`, most significant bit first; the two lifetimes
are stored as big-endian byte sequences (`be32`). -/
structure radv_prefix_opt where
  type : Nat
  length : Nat
  prefixlen : Nat
  flags : Nat
  valid_lifetime : List Nat
  preferred_lifetime : List Nat
  in6_addr : Nat
deriving DecidableEq, Repr

/-- Modelled from the spec: `sizeof(struct radv_prefix_opt)` — the struct
is declared in `radv-internal.h`, which is not part of the excerpt.  The
spec's wire layout (section 6) gives type (1) + length (1) + prefix length
(1) + flags (1) + valid lifetime (4) + preferred lifetime (4) + reserved
(4) + address (16) = 32 bytes. -/
def radv_prefix_opt_sizeof : Nat := 32

/-- The reference-counted prefix object `struct sd_radv_prefix`. -/
structure sd_radv_prefix where
  n_ref : Nat
  opt : radv_prefix_opt
deriving DecidableEq, Repr

/-- The advertisement session `struct sd_radv`.  The scheduler handle
(`sd_event *event`) is opaque to this core and modelled as an
`Option Nat`; the intrusive prefix list is a Lean list in insertion
order (head = oldest, append at the tail). -/
structure SdRadv where
  n_ref : Nat
  event : Option Nat
  event_priority : Int
  state : RadvState
  ifindex : Int
  mac_addr : List Nat
  mtu : Nat
  hop_limit : Nat
  lifetime : Nat
  flags : Nat
  prefixes : List sd_radv_prefix
  n_prefixes : Nat
deriving DecidableEq, Repr

/-- `sd_radv_new`: a fresh zero-initialised session (`new0`) with
reference count 1, empty prefix list and Idle state (enum value 0). -/
def sd_radv_new : SdRadv :=
  { n_ref := 1
  , event := none
  , event_priority := 0
  , state := RadvState.idle
  , ifindex := 0
  , mac_addr := List.replicate 6 0
  , mtu := 0
  , hop_limit := 0
  , lifetime := 0
  , flags := 0
  , prefixes := []
  , n_prefixes := 0 }

/-- `sd_radv_stop`: unconditionally set the state to Idle and succeed. -/
def sd_radv_stop (ra : SdRadv) : Except Errno SdRadv :=
  Except.ok { ra with state := RadvState.idle }

/-- `sd_radv_start`: requires an attached event and a positive interface
index; a session that is not Idle is left unchanged with success;
otherwise the state becomes Advertising. -/
def sd_radv_start (ra : SdRadv) : Except Errno SdRadv :=
  if ra.event.isSome then
    if 0 < ra.ifindex then
      if ra.state = RadvState.idle then
        Except.ok { ra with state := RadvState.advertising }
      else
        Except.ok ra
    else
      Except.error Errno.EINVAL
  else
    Except.error Errno.EINVAL

/-- `sd_radv_set_ifindex`: rejects values below -1, then fails busy
outside Idle, otherwise stores the index. -/
def sd_radv_set_ifindex (ra : SdRadv) (ifindex : Int) : Except Errno SdRadv :=
  if -1 ≤ ifindex then
    if ra.state = RadvState.idle then
      Except.ok { ra with ifindex := ifindex }
    else
      Except.error Errno.EBUSY
  else
    Except.error Errno.EINVAL

/-- `sd_radv_set_mac`: fails busy outside Idle; stores the given 6-byte
address, or zeroes the field when none is supplied. -/
def sd_radv_set_mac (ra : SdRadv) (mac_addr : Option (List Nat)) : Except Errno SdRadv :=
  if ra.state = RadvState.idle then
    match mac_addr with
    | some m => Except.ok { ra with mac_addr := m }
    | none => Except.ok { ra with mac_addr := List.replicate 6 0 }
  else
    Except.error Errno.EBUSY

/-- `sd_radv_set_mtu`: rejects values below 1280 (IPv6 minimum link MTU)
in any state, then fails busy outside Idle, otherwise stores the MTU. -/
def sd_radv_set_mtu (ra : SdRadv) (mtu : Nat) : Except Errno SdRadv :=
  if 1280 ≤ mtu then
    if ra.state = RadvState.idle then
      Except.ok { ra with mtu := mtu }
    else
      Except.error Errno.EBUSY
  else
    Except.error Errno.EINVAL

/-- `sd_radv_set_hop_limit`: fails busy outside Idle, otherwise stores
the hop limit. -/
def sd_radv_set_hop_limit (ra : SdRadv) (hop_limit : Nat) : Except Errno SdRadv :=
  if ra.state = RadvState.idle then
    Except.ok { ra with hop_limit := hop_limit }
  else
    Except.error Errno.EBUSY

/-- `sd_radv_set_router_lifetime`: fails busy outside Idle; per RFC 4191
section 2.2 a zero lifetime is refused with `-ETIME` unless the encoded
2-bit preference field (bits 3-4 of the flags byte) equals Medium. -/
def sd_radv_set_router_lifetime (ra : SdRadv) (router_lifetime : Nat) : Except Errno SdRadv :=
  if ra.state = RadvState.idle then
    if router_lifetime = 0 ∧
        ra.flags &&& (0x3 <<< 3) ≠ SD_NDISC_PREFERENCE_MEDIUM <<< 3 then
      Except.error Errno.ETIME
    else
      Except.ok { ra with lifetime := router_lifetime }
  else
    Except.error Errno.EBUSY

/-- `sd_radv_set_managed_information`: fails busy outside Idle, otherwise
sets or clears the Managed flag bit. -/
def sd_radv_set_managed_information (ra : SdRadv) (managed : Bool) : Except Errno SdRadv :=
  if ra.state = RadvState.idle then
    Except.ok { ra with flags := SET_FLAG ra.flags ND_RA_FLAG_MANAGED managed }
  else
    Except.error Errno.EBUSY

/-- `sd_radv_set_other_information`: fails busy outside Idle, otherwise
sets or clears the Other flag bit. -/
def sd_radv_set_other_information (ra : SdRadv) (other : Bool) : Except Errno SdRadv :=
  if ra.state = RadvState.idle then
    Except.ok { ra with flags := SET_FLAG ra.flags ND_RA_FLAG_OTHER other }
  else
    Except.error Errno.EBUSY

/-- `sd_radv_set_preference`: accepts exactly Low, Medium or High, with
no state check, and overwrites only the 2-bit preference field at bits
3-4 of the flags byte. -/
def sd_radv_set_preference (ra : SdRadv) (preference : Nat) : Except Errno SdRadv :=
  if preference = SD_NDISC_PREFERENCE_LOW ∨
      preference = SD_NDISC_PREFERENCE_MEDIUM ∨
      preference = SD_NDISC_PREFERENCE_HIGH then
    Except.ok { ra with flags := ( ra.flags &&& (255 ^^^ (0x3 <<< 3))) ||| (preference <<< 3) }
  else
    Except.error Errno.EINVAL

/-- Modelled from the spec: `in_addr_prefix_intersect` lives in
`src/basic/in-addr-util.c`, which is not part of the excerpt.  Spec,
section 4.2: "prefix-bit intersection: the shorter of the two prefix
lengths determines how many leading bits must match".  Addresses are
128-bit values, most significant bit first; a prefix length is clamped to
the 128 address bits. -/
def in_addr_prefix_intersect (a : Nat) (aplen : Nat) (b : Nat) (bplen : Nat) : Bool :=
  let len := min (min aplen 128) (min bplen 128)
  a / 2 ^ (128 - len) == b / 2 ^ (128 - len)

/-- `sd_radv_prefix_ref` on a non-null prefix: step the reference count
up by one. -/
def sd_radv_prefix_ref (p : sd_radv_prefix) : sd_radv_prefix :=
  { p with n_ref := p.n_ref + 1 }

/-- `sd_radv_add_prefix`: reject a null prefix; scan the current members
in order and refuse with `-EEXIST` any new prefix whose range intersects
an existing one, mutating nothing; otherwise take one new reference,
append at the tail and step the prefix count. -/
def sd_radv_add_prefix (ra : SdRadv) (p : Option sd_radv_prefix) :
    Except Errno (SdRadv × sd_radv_prefix) :=
  match p with
  | none => Except.error Errno.EINVAL
  | some p =>
    if ra.prefixes.any (fun cur =>
        in_addr_prefix_intersect cur.opt.in6_addr cur.opt.prefixlen
          p.opt.in6_addr p.opt.prefixlen) then
      Except.error Errno.EEXIST
    else
      let q := sd_radv_prefix_ref p
      Except.ok ({ ra with prefixes := ra.prefixes ++ [q], n_prefixes := ra.n_prefixes + 1 }, q)

/-- `sd_radv_prefix_new`: a fresh zero-initialised prefix option with
reference count 1, type 3, length `(sizeof(opt) - 1) / 8 + 1`, prefix
length 64, on-link and autonomous flags set, and the RFC 4861 section
6.2.1 default lifetimes stored big-endian. -/
def sd_radv_prefix_new : sd_radv_prefix :=
  { n_ref := 1
  , opt :=
    { type := ND_OPT_PREFIX_INFORMATION
    , length := (radv_prefix_opt_sizeof - 1) / 8 + 1
    , prefixlen := 64
    , flags := SET_FLAG ( SET_FLAG 0 ND_OPT_PI_FLAG_ONLINK true) ND_OPT_PI_FLAG_AUTO true
    , preferred_lifetime := be32 604800
    , valid_lifetime := be32 2592000
    , in6_addr := 0 } }

/-- `sd_radv_prefix_set_prefix`: lengths outside [3, 128] are rejected
with `-EINVAL` and nothing is stored; otherwise the address and length
are stored (lengths above 64 are additionally logged as unusual, see
`radv_prefix_len_unusual_logged`). -/
def sd_radv_prefix_set_prefix (p : sd_radv_prefix) (in6_addr : Nat) (prefixlen : Nat) :
    Except Errno sd_radv_prefix :=
  if prefixlen < 3 ∨ 128 < prefixlen then
    Except.error Errno.EINVAL
  else
    Except.ok { p with opt := { p.opt with in6_addr := in6_addr, prefixlen := prefixlen } }

/-- Whether `sd_radv_prefix_set_prefix` emits the "Unusual prefix length"
log line: only on the success path, for lengths strictly above 64. -/
def radv_prefix_len_unusual_logged (prefixlen : Nat) : Bool :=
  !(decide (prefixlen < 3) || decide (128 < prefixlen)) && decide (64 < prefixlen)

/-- `sd_radv_prefix_set_onlink`: set or clear the on-link flag bit;
always succeeds on a non-null prefix. -/
def sd_radv_prefix_set_onlink (p : sd_radv_prefix) (onlink : Bool) : sd_radv_prefix :=
  { p with opt := { p.opt with flags := SET_FLAG p.opt.flags ND_OPT_PI_FLAG_ONLINK onlink } }

/-- `sd_radv_prefix_set_address_autoconfiguration`: set or clear the
autonomous flag bit; always succeeds on a non-null prefix. -/
def sd_radv_prefix_set_address_autoconfiguration (p : sd_radv_prefix) (auto : Bool) : sd_radv_prefix :=
  { p with opt := { p.opt with flags := SET_FLAG p.opt.flags ND_OPT_PI_FLAG_AUTO auto } }

/-- `sd_radv_prefix_set_valid_lifetime`: store the big-endian encoding of
the given seconds value; always succeeds on a non-null prefix. -/
def sd_radv_prefix_set_valid_lifetime (p : sd_radv_prefix) (valid_lifetime : Nat) : sd_radv_prefix :=
  { p with opt := { p.opt with valid_lifetime := be32 valid_lifetime } }

/-- `sd_radv_prefix_set_preferred_lifetime`: store the big-endian
encoding of the given seconds value; always succeeds on a non-null
prefix. -/
def sd_radv_prefix_set_preferred_lifetime (p : sd_radv_prefix) (preferred_lifetime : Nat) : sd_radv_prefix :=
  { p with opt := { p.opt with preferred_lifetime := be32 preferred_lifetime } }

/-! Concrete fixtures used by the witnesses: the two prefix ranges of the
spec's overlap example and ready-made sessions in each state. -/

/-- The 128-bit value of `2001:db8::`. -/
def addr_2001_db8 : Nat := 0x20010db8 * 2 ^ 96

/-- The 128-bit value of `2001:db8:1::`. -/
def addr_2001_db8_0001 : Nat := 0x20010db80001 * 2 ^ 80

/-- The 128-bit value of `2001:db9::`. -/
def addr_2001_db9 : Nat := 0x20010db9 * 2 ^ 96

/-- A fresh prefix object configured with the given address and length
through the public setter. -/
def mk_pfx (addr len : Nat) : sd_radv_prefix :=
  match sd_radv_prefix_set_prefix sd_radv_prefix_new addr len with
  | Except.ok q => q
  | Except.error _ => sd_radv_prefix_new

/-- The prefix `2001:db8::/32`. -/
def pfx_db8_32 : sd_radv_prefix := mk_pfx addr_2001_db8 32

/-- The prefix `2001:db8:1::/48`, contained in `2001:db8::/32`. -/
def pfx_db8_0001_48 : sd_radv_prefix := mk_pfx addr_2001_db8_0001 48

/-- The prefix `2001:db9::/32`, disjoint from `2001:db8::/32`. -/
def pfx_db9_32 : sd_radv_prefix := mk_pfx addr_2001_db9 32

/-- A fresh session holding exactly the prefix `2001:db8::/32`. -/
def ra_db8 : SdRadv :=
  match sd_radv_add_prefix sd_radv_new (some pfx_db8_32) with
  | Except.ok (ra, _) => ra
  | Except.error _ => sd_radv_new

/-- A session with an event attached and interface index 1, still Idle. -/
def ra_ready : SdRadv := { sd_radv_new with event := some 0, ifindex := 1 }

/-- A session with an event attached and interface index 1, Advertising. -/
def ra_adv : SdRadv := { ra_ready with state := RadvState.advertising }

/-- C1: for an Idle session, setting the router lifetime to 0 fails with
InvalidTiming (`-ETIME`) exactly when the encoded 2-bit preference field
differs from Medium — and in that case no new state is produced, so the
stored lifetime is untouched — while setting any nonzero lifetime
succeeds regardless of the current preference. -/
theorem C1_router_lifetime_zero_vs_preference (ra : SdRadv) (lt : Nat)
    (hidle : ra.state = RadvState.idle) (hlt : lt ≠ 0) :
    ( sd_radv_set_router_lifetime ra 0 = Except.error Errno.ETIME ↔
        ra.flags &&& (0x3 <<< 3) ≠ SD_NDISC_PREFERENCE_MEDIUM <<< 3) ∧
    ( ra.flags &&& (0x3 <<< 3) = SD_NDISC_PREFERENCE_MEDIUM <<< 3 →
        sd_radv_set_router_lifetime ra 0 = Except.ok { ra with lifetime := 0 }) ∧
    sd_radv_set_router_lifetime ra lt = Except.ok { ra with lifetime := lt } := by
  by_cases hp : ra.flags &&& (0x3 <<< 3) = SD_NDISC_PREFERENCE_MEDIUM <<< 3 <;>
    simp [sd_radv_set_router_lifetime, SD_NDISC_PREFERENCE_MEDIUM, hidle, hp, hlt]

/-- Witness for C1 at concrete sessions: Low preference (bits value 24)
with lifetime 0 fails, Medium preference with lifetime 0 succeeds, and a
nonzero lifetime succeeds. -/
theorem C1_witness :
    sd_radv_set_router_lifetime { sd_radv_new with flags := 24 } 0 = Except.error Errno.ETIME ∧
    sd_radv_set_router_lifetime sd_radv_new 0 = Except.ok { sd_radv_new with lifetime := 0 } ∧
    sd_radv_set_router_lifetime sd_radv_new 1800 = Except.ok { sd_radv_new with lifetime := 1800 } := by
  have h1 := C1_router_lifetime_zero_vs_preference { sd_radv_new with flags := 24 } 1800 rfl (by decide)
  have h2 := C1_router_lifetime_zero_vs_preference sd_radv_new 1800 rfl (by decide)
  exact ⟨h1.1.mpr (by decide), h2.2.1 (by decide), h2.2.2⟩

/-- C2 counterexample: a fresh session has router lifetime 0, yet
requesting the non-Medium preference High succeeds and changes the flags
field — the setter does not reject the combination the claim says it
rejects. -/
theorem C2_counterexample_high_pref_on_zero_lifetime :
    sd_radv_new.lifetime = 0 ∧
    SD_NDISC_PREFERENCE_HIGH ≠ SD_NDISC_PREFERENCE_MEDIUM ∧
    sd_radv_set_preference sd_radv_new SD_NDISC_PREFERENCE_HIGH =
      Except.ok { sd_radv_new with flags := 8 } ∧
    ({ sd_radv_new with flags := 8 } : SdRadv).flags ≠ sd_radv_new.flags := by decide

/-- C2 (amended): the preference setter performs no Idle check and no
lifetime cross-check: a valid preference (Low, Medium or High) succeeds
on every session — including one whose stored router lifetime is 0 with
a requested preference other than Medium — and every other value fails
with an invalid-argument condition. -/
theorem C2_preference_set_any_state (ra : SdRadv) (pref : Nat)
    (hv : pref = SD_NDISC_PREFERENCE_LOW ∨ pref = SD_NDISC_PREFERENCE_MEDIUM ∨
        pref = SD_NDISC_PREFERENCE_HIGH) :
    ( sd_radv_set_preference ra pref).isOk = true ∧
    (∀ q : Nat, q ≠ SD_NDISC_PREFERENCE_LOW → q ≠ SD_NDISC_PREFERENCE_MEDIUM →
        q ≠ SD_NDISC_PREFERENCE_HIGH →
        sd_radv_set_preference ra q = Except.error Errno.EINVAL) := by
  constructor
  · unfold sd_radv_set_preference
    rw [if_pos hv]
    rfl
  · intro q h1 h2 h3
    unfold sd_radv_set_preference
    rw [if_neg]
    rintro (h | h | h) <;> contradiction

/-- Witness for C2 at the forbidden combination itself: the fresh session
has lifetime 0 and the High request succeeds; the out-of-range value 2 is
rejected. -/
theorem C2_witness :
    ( sd_radv_set_preference sd_radv_new SD_NDISC_PREFERENCE_HIGH).isOk = true ∧
    sd_radv_set_preference sd_radv_new 2 = Except.error Errno.EINVAL := by
  have h := C2_preference_set_any_state sd_radv_new SD_NDISC_PREFERENCE_HIGH (by decide)
  exact ⟨h.1, h.2 2 (by decide) (by decide) (by decide)⟩

set_option maxRecDepth 4000

/-- Bits of a flags byte outside the 2-bit preference field survive the
preference update, for each of the three encoded preference values. -/
theorem preference_update_mask_frame : ∀ f : Nat, f < 256 →
    (((f &&& (255 ^^^ (0x3 <<< 3))) ||| (SD_NDISC_PREFERENCE_LOW <<< 3)) &&& ND_RA_FLAG_MANAGED = f &&& ND_RA_FLAG_MANAGED ∧
     ((f &&& (255 ^^^ (0x3 <<< 3))) ||| (SD_NDISC_PREFERENCE_LOW <<< 3)) &&& ND_RA_FLAG_OTHER = f &&& ND_RA_FLAG_OTHER ∧
     ((f &&& (255 ^^^ (0x3 <<< 3))) ||| (SD_NDISC_PREFERENCE_LOW <<< 3)) &&& (255 ^^^ (0x3 <<< 3)) = f &&& (255 ^^^ (0x3 <<< 3))) ∧
    (((f &&& (255 ^^^ (0x3 <<< 3))) ||| (SD_NDISC_PREFERENCE_MEDIUM <<< 3)) &&& ND_RA_FLAG_MANAGED = f &&& ND_RA_FLAG_MANAGED ∧
     ((f &&& (255 ^^^ (0x3 <<< 3))) ||| (SD_NDISC_PREFERENCE_MEDIUM <<< 3)) &&& ND_RA_FLAG_OTHER = f &&& ND_RA_FLAG_OTHER ∧
     ((f &&& (255 ^^^ (0x3 <<< 3))) ||| (SD_NDISC_PREFERENCE_MEDIUM <<< 3)) &&& (255 ^^^ (0x3 <<< 3)) = f &&& (255 ^^^ (0x3 <<< 3))) ∧
    (((f &&& (255 ^^^ (0x3 <<< 3))) ||| (SD_NDISC_PREFERENCE_HIGH <<< 3)) &&& ND_RA_FLAG_MANAGED = f &&& ND_RA_FLAG_MANAGED ∧
     ((f &&& (255 ^^^ (0x3 <<< 3))) ||| (SD_NDISC_PREFERENCE_HIGH <<< 3)) &&& ND_RA_FLAG_OTHER = f &&& ND_RA_FLAG_OTHER ∧
     ((f &&& (255 ^^^ (0x3 <<< 3))) ||| (SD_NDISC_PREFERENCE_HIGH <<< 3)) &&& (255 ^^^ (0x3 <<< 3)) = f &&& (255 ^^^ (0x3 <<< 3))) := by
  decide

/-- C9: a successful preference update changes only the 2-bit preference
field at bits 3-4 of the flags byte: the Managed bit, the Other bit, all
remaining bits of the byte, and every other session field are
unchanged. -/
theorem C9_preference_touches_only_preference_bits (ra : SdRadv) (pref : Nat) (ra2 : SdRadv)
    (hf : ra.flags < 256)
    (h : sd_radv_set_preference ra pref = Except.ok ra2) :
    ra2.flags &&& ND_RA_FLAG_MANAGED = ra.flags &&& ND_RA_FLAG_MANAGED ∧
    ra2.flags &&& ND_RA_FLAG_OTHER = ra.flags &&& ND_RA_FLAG_OTHER ∧
    ra2.flags &&& (255 ^^^ (0x3 <<< 3)) = ra.flags &&& (255 ^^^ (0x3 <<< 3)) ∧
    ra2.n_ref = ra.n_ref ∧ ra2.event = ra.event ∧ ra2.event_priority = ra.event_priority ∧
    ra2.state = ra.state ∧ ra2.ifindex = ra.ifindex ∧ ra2.mac_addr = ra.mac_addr ∧
    ra2.mtu = ra.mtu ∧ ra2.hop_limit = ra.hop_limit ∧ ra2.lifetime = ra.lifetime ∧
    ra2.prefixes = ra.prefixes ∧ ra2.n_prefixes = ra.n_prefixes := by
  have hm := preference_update_mask_frame ra.flags hf
  unfold sd_radv_set_preference at h
  split at h
  case isTrue hv =>
    injection h with h
    subst h
    rcases hv with hv | hv | hv <;> subst hv
    · exact ⟨hm.1.1, hm.1.2.1, hm.1.2.2, rfl, rfl, rfl, rfl, rfl, rfl, rfl, rfl, rfl, rfl, rfl⟩
    · exact ⟨hm.2.1.1, hm.2.1.2.1, hm.2.1.2.2, rfl, rfl, rfl, rfl, rfl, rfl, rfl, rfl, rfl, rfl, rfl⟩
    · exact ⟨hm.2.2.1, hm.2.2.2.1, hm.2.2.2.2, rfl, rfl, rfl, rfl, rfl, rfl, rfl, rfl, rfl, rfl, rfl⟩
  case isFalse =>
    exact absurd h (by simp)

/-- Witness for C9: flags byte 192 (Managed and Other set, preference
Medium) updated to Low becomes 216, preserving both flag bits and the
state. -/
theorem C9_witness :
    ({ sd_radv_new with flags := 216 } : SdRadv).flags &&& ND_RA_FLAG_MANAGED =
      ({ sd_radv_new with flags := 192 } : SdRadv).flags &&& ND_RA_FLAG_MANAGED ∧
    ({ sd_radv_new with flags := 216 } : SdRadv).flags &&& ND_RA_FLAG_OTHER =
      ({ sd_radv_new with flags := 192 } : SdRadv).flags &&& ND_RA_FLAG_OTHER ∧
    ({ sd_radv_new with flags := 216 } : SdRadv).state =
      ({ sd_radv_new with flags := 192 } : SdRadv).state := by
  have h := C9_preference_touches_only_preference_bits
    { sd_radv_new with flags := 192 } SD_NDISC_PREFERENCE_LOW
    { sd_radv_new with flags := 216 } (by decide) (by decide)
  exact ⟨h.1, h.2.1, h.2.2.2.2.2.2.1⟩

/-- C3: `sd_radv_add_prefix` rejects a null prefix with `-EINVAL`; a
prefix whose range bit-intersects any current member fails with
`-EEXIST` producing no new state (set, order, count and reference counts
untouched); a non-intersecting prefix is stored with exactly one new
reference taken, appended at the tail, the count stepped by one and every
other session field unchanged.  Concretely, after `2001:db8::/32` the
prefix `2001:db8:1::/48` is refused while `2001:db9::/32` is accepted. -/
theorem C3_add_prefix_overlap_and_append (ra : SdRadv) (p q : sd_radv_prefix)
    (hin : ∃ cur ∈ ra.prefixes, in_addr_prefix_intersect cur.opt.in6_addr cur.opt.prefixlen
        q.opt.in6_addr q.opt.prefixlen = true)
    (hout : ∀ cur ∈ ra.prefixes, in_addr_prefix_intersect cur.opt.in6_addr cur.opt.prefixlen
        p.opt.in6_addr p.opt.prefixlen = false) :
    sd_radv_add_prefix ra none = Except.error Errno.EINVAL ∧
    sd_radv_add_prefix ra (some q) = Except.error Errno.EEXIST ∧
    sd_radv_add_prefix ra (some p) =
      Except.ok ({ ra with prefixes := ra.prefixes ++ [{ p with n_ref := p.n_ref + 1 }],
                           n_prefixes := ra.n_prefixes + 1 },
                 { p with n_ref := p.n_ref + 1 }) ∧
    sd_radv_add_prefix sd_radv_new (some pfx_db8_32) =
      Except.ok (ra_db8, { pfx_db8_32 with n_ref := 2 }) ∧
    sd_radv_add_prefix ra_db8 (some pfx_db8_0001_48) = Except.error Errno.EEXIST ∧
    ( sd_radv_add_prefix ra_db8 (some pfx_db9_32)).isOk = true := by
  refine ⟨rfl, ?_, ?_, by decide, by decide, by decide⟩
  · simp only [ sd_radv_add_prefix]
    rw [List.any_eq_true.mpr hin]
    rfl
  · simp only [ sd_radv_add_prefix]
    have hfalse : (ra.prefixes.any fun cur =>
        in_addr_prefix_intersect cur.opt.in6_addr cur.opt.prefixlen
          p.opt.in6_addr p.opt.prefixlen) = false := by
      rw [List.any_eq_false]
      intro cur hmem
      simp [hout cur hmem]
    rw [hfalse]
    rfl

/-- Witness for C3 on the session already holding `2001:db8::/32`:
null rejected, contained `2001:db8:1::/48` rejected, and disjoint
`2001:db9::/32` appended at the tail with one new reference and the
count stepped. -/
theorem C3_witness :
    sd_radv_add_prefix ra_db8 none = Except.error Errno.EINVAL ∧
    sd_radv_add_prefix ra_db8 (some pfx_db8_0001_48) = Except.error Errno.EEXIST ∧
    sd_radv_add_prefix ra_db8 (some pfx_db9_32) =
      Except.ok ({ ra_db8 with prefixes := ra_db8.prefixes ++ [{ pfx_db9_32 with n_ref := pfx_db9_32.n_ref + 1 }],
                               n_prefixes := ra_db8.n_prefixes + 1 },
                 { pfx_db9_32 with n_ref := pfx_db9_32.n_ref + 1 }) := by
  have h := C3_add_prefix_overlap_and_append ra_db8 pfx_db9_32 pfx_db8_0001_48
    (by decide) (by decide)
  exact ⟨h.1, h.2.1, h.2.2.1⟩

/-- C10: `sd_radv_add_prefix` never consults the session state: for every
session, Idle or Advertising, a non-null prefix that intersects no
current member is accepted, and the call never fails with `-EBUSY`. -/
theorem C10_add_prefix_ignores_state (ra : SdRadv) (p : sd_radv_prefix)
    (hout : ∀ cur ∈ ra.prefixes, in_addr_prefix_intersect cur.opt.in6_addr cur.opt.prefixlen
        p.opt.in6_addr p.opt.prefixlen = false) :
    ( sd_radv_add_prefix ra (some p)).isOk = true ∧
    sd_radv_add_prefix ra (some p) ≠ Except.error Errno.EBUSY := by
  have hok : sd_radv_add_prefix ra (some p) =
      Except.ok ({ ra with prefixes := ra.prefixes ++ [{ p with n_ref := p.n_ref + 1 }],
                           n_prefixes := ra.n_prefixes + 1 },
                 { p with n_ref := p.n_ref + 1 }) := by
    simp only [ sd_radv_add_prefix]
    have hfalse : (ra.prefixes.any fun cur =>
        in_addr_prefix_intersect cur.opt.in6_addr cur.opt.prefixlen
          p.opt.in6_addr p.opt.prefixlen) = false := by
      rw [List.any_eq_false]
      intro cur hmem
      simp [hout cur hmem]
    rw [hfalse]
    rfl
  rw [hok]
  exact ⟨rfl, by simp⟩

/-- Witness for C10 on an Advertising session: the add succeeds even
though every configuration setter would be busy. -/
theorem C10_witness :
    ra_adv.state = RadvState.advertising ∧
    ( sd_radv_add_prefix ra_adv (some pfx_db9_32)).isOk = true := by
  have h := C10_add_prefix_ignores_state ra_adv pfx_db9_32 (by decide)
  exact ⟨rfl, h.1⟩

/-- C4: `sd_radv_start` fails with `-EINVAL` when no event is attached or
the interface index is not strictly positive; on an Advertising session
it returns success with the session unchanged; on an Idle session with
the preconditions met it moves the state to Advertising.  `sd_radv_stop`
unconditionally sets the state to Idle and succeeds, also on an already
Idle session. -/
theorem C4_start_stop_idempotent (ra raNoEv raAdv raIdle : SdRadv)
    (h1 : raNoEv.event = none)
    (h3 : raAdv.event.isSome = true) (h4 : 0 < raAdv.ifindex)
    (h5 : raAdv.state = RadvState.advertising)
    (h6 : raIdle.event.isSome = true) (h7 : 0 < raIdle.ifindex)
    (h8 : raIdle.state = RadvState.idle) :
    sd_radv_start raNoEv = Except.error Errno.EINVAL ∧
    (∀ rb : SdRadv, rb.ifindex ≤ 0 → sd_radv_start rb = Except.error Errno.EINVAL) ∧
    sd_radv_start raAdv = Except.ok raAdv ∧
    sd_radv_start raIdle = Except.ok { raIdle with state := RadvState.advertising } ∧
    sd_radv_stop ra = Except.ok { ra with state := RadvState.idle } ∧
    sd_radv_stop { ra with state := RadvState.idle } = Except.ok { ra with state := RadvState.idle } := by
  refine ⟨?_, ?_, ?_, ?_, rfl, rfl⟩
  · simp [sd_radv_start, h1]
  · intro rb hb
    rcases hev : rb.event with _ | e
    · simp [sd_radv_start, hev]
    · simp [sd_radv_start, hev, not_lt.mpr hb]
  · simp [sd_radv_start, h3, h4, h5]
  · simp [sd_radv_start, h6, h7, h8]

/-- Witness for C4: the fresh session has no event and fails to start;
the Advertising fixture restarts as a no-op; the ready Idle fixture
transitions; stop on the Advertising fixture goes back to Idle. -/
theorem C4_witness :
    sd_radv_start sd_radv_new = Except.error Errno.EINVAL ∧
    sd_radv_start ra_adv = Except.ok ra_adv ∧
    sd_radv_start ra_ready = Except.ok { ra_ready with state := RadvState.advertising } ∧
    sd_radv_stop ra_adv = Except.ok { ra_adv with state := RadvState.idle } := by
  have h := C4_start_stop_idempotent ra_adv sd_radv_new ra_adv ra_ready
    rfl rfl (by decide) rfl rfl (by decide) rfl
  exact ⟨h.1, h.2.2.1, h.2.2.2.1, h.2.2.2.2.1⟩

/-- C5: with the session Advertising, every router-level setter —
interface index (in-range argument), MAC, MTU (≥ 1280), hop limit,
router lifetime, managed flag, other flag — fails with `-EBUSY`,
returning no new state; an MTU of at least 1280 succeeds on an Idle
session; an MTU below 1280 is rejected with `-EINVAL` in both states. -/
theorem C5_setters_busy_while_advertising (ra raI : SdRadv) (mtu mtuBad hl lt : Nat)
    (i : Int) (b : Bool) (m : Option (List Nat))
    (hadv : ra.state = RadvState.advertising) (hidle : raI.state = RadvState.idle)
    (hmtu : 1280 ≤ mtu) (hbad : mtuBad < 1280) (hi : -1 ≤ i) :
    sd_radv_set_ifindex ra i = Except.error Errno.EBUSY ∧
    sd_radv_set_mac ra m = Except.error Errno.EBUSY ∧
    sd_radv_set_mtu ra mtu = Except.error Errno.EBUSY ∧
    sd_radv_set_hop_limit ra hl = Except.error Errno.EBUSY ∧
    sd_radv_set_router_lifetime ra lt = Except.error Errno.EBUSY ∧
    sd_radv_set_managed_information ra b = Except.error Errno.EBUSY ∧
    sd_radv_set_other_information ra b = Except.error Errno.EBUSY ∧
    sd_radv_set_mtu raI mtu = Except.ok { raI with mtu := mtu } ∧
    sd_radv_set_mtu ra mtuBad = Except.error Errno.EINVAL ∧
    sd_radv_set_mtu raI mtuBad = Except.error Errno.EINVAL := by
  refine ⟨?_, ?_, ?_, ?_, ?_, ?_, ?_, ?_, ?_, ?_⟩
  · simp [sd_radv_set_ifindex, hadv, hi]
  · simp [sd_radv_set_mac, hadv]
  · simp [sd_radv_set_mtu, hadv, hmtu]
  · simp [sd_radv_set_hop_limit, hadv]
  · simp [sd_radv_set_router_lifetime, hadv]
  · simp [sd_radv_set_managed_information, hadv]
  · simp [sd_radv_set_other_information, hadv]
  · simp [sd_radv_set_mtu, hidle, hmtu]
  · simp [sd_radv_set_mtu, Nat.not_le.mpr hbad]
  · simp [sd_radv_set_mtu, Nat.not_le.mpr hbad]

/-- Witness for C5: concrete MTU 1500 is busy while Advertising and
stored while Idle; MTU 1279 is invalid in both states; the interface
index setter is busy while Advertising. -/
theorem C5_witness :
    sd_radv_set_ifindex ra_adv 2 = Except.error Errno.EBUSY ∧
    sd_radv_set_mtu ra_adv 1500 = Except.error Errno.EBUSY ∧
    sd_radv_set_mtu sd_radv_new 1500 = Except.ok { sd_radv_new with mtu := 1500 } ∧
    sd_radv_set_mtu ra_adv 1279 = Except.error Errno.EINVAL ∧
    sd_radv_set_mtu sd_radv_new 1279 = Except.error Errno.EINVAL := by
  have h := C5_setters_busy_while_advertising ra_adv sd_radv_new 1500 1279 64 0 2 true none
    rfl rfl (by decide) (by decide) (by decide)
  exact ⟨h.1, h.2.2.1, h.2.2.2.2.2.2.2.1, h.2.2.2.2.2.2.2.2.1, h.2.2.2.2.2.2.2.2.2⟩

/-- C6: a freshly constructed Prefix Option has prefix length 64, the
on-link and autonomous-configuration flag bits set, preferred lifetime
604800 and valid lifetime 2592000 seconds stored big-endian, option type
3 and option length 4 (8-byte units); no prefix setter ever changes the
type or the length. -/
theorem C6_prefix_new_defaults (p p2 : sd_radv_prefix) (addr len v : Nat) (b : Bool)
    (h : sd_radv_prefix_set_prefix p addr len = Except.ok p2) :
    sd_radv_prefix_new.opt.prefixlen = 64 ∧
    sd_radv_prefix_new.opt.flags &&& ND_OPT_PI_FLAG_ONLINK = ND_OPT_PI_FLAG_ONLINK ∧
    sd_radv_prefix_new.opt.flags &&& ND_OPT_PI_FLAG_AUTO = ND_OPT_PI_FLAG_AUTO ∧
    sd_radv_prefix_new.opt.preferred_lifetime = be32 604800 ∧
    sd_radv_prefix_new.opt.valid_lifetime = be32 2592000 ∧
    sd_radv_prefix_new.opt.type = ND_OPT_PREFIX_INFORMATION ∧
    sd_radv_prefix_new.opt.type = 3 ∧
    sd_radv_prefix_new.opt.length = (radv_prefix_opt_sizeof - 1) / 8 + 1 ∧
    sd_radv_prefix_new.opt.length = 4 ∧
    (p2.opt.type = p.opt.type ∧ p2.opt.length = p.opt.length) ∧
    (( sd_radv_prefix_set_onlink p b).opt.type = p.opt.type ∧
     ( sd_radv_prefix_set_onlink p b).opt.length = p.opt.length) ∧
    (( sd_radv_prefix_set_address_autoconfiguration p b).opt.type = p.opt.type ∧
     ( sd_radv_prefix_set_address_autoconfiguration p b).opt.length = p.opt.length) ∧
    (( sd_radv_prefix_set_valid_lifetime p v).opt.type = p.opt.type ∧
     ( sd_radv_prefix_set_valid_lifetime p v).opt.length = p.opt.length) ∧
    (( sd_radv_prefix_set_preferred_lifetime p v).opt.type = p.opt.type ∧
     ( sd_radv_prefix_set_preferred_lifetime p v).opt.length = p.opt.length) := by
  refine ⟨by decide, by decide, by decide, by decide, by decide, by decide, by decide,
    by decide, by decide, ?_, ⟨rfl, rfl⟩, ⟨rfl, rfl⟩, ⟨rfl, rfl⟩, ⟨rfl, rfl⟩⟩
  unfold sd_radv_prefix_set_prefix at h
  split at h
  · exact absurd h (by simp)
  · injection h with h
    subst h
    exact ⟨rfl, rfl⟩

/-- Witness for C6: the computed option length is 4 and a concrete
`set_prefix` call keeps the type tag at 3. -/
theorem C6_witness :
    sd_radv_prefix_new.opt.length = 4 ∧
    pfx_db8_32.opt.type = sd_radv_prefix_new.opt.type ∧
    pfx_db8_32.opt.length = sd_radv_prefix_new.opt.length := by
  have h := C6_prefix_new_defaults sd_radv_prefix_new pfx_db8_32 addr_2001_db8 32 0 true
    (by decide)
  exact ⟨h.2.2.2.2.2.2.2.2.1, h.2.2.2.2.2.2.2.2.2.1.1, h.2.2.2.2.2.2.2.2.2.1.2⟩

/-- C7: `sd_radv_prefix_set_prefix` validates the length against
[3, 128]: lengths 2 and 129 (and every out-of-range length) fail with
`-EINVAL`, producing no new state, so the stored address and length are
untouched; lengths 3, 128, 100 and every in-range length store the given
address and length; only lengths above 64 on the success path are logged
as unusual. -/
theorem C7_set_prefix_length_validation (p : sd_radv_prefix) (addr len lenBad : Nat)
    (hlo : 3 ≤ len) (hhi : len ≤ 128) (hbad : lenBad < 3 ∨ 128 < lenBad) :
    sd_radv_prefix_set_prefix p addr 2 = Except.error Errno.EINVAL ∧
    sd_radv_prefix_set_prefix p addr 129 = Except.error Errno.EINVAL ∧
    sd_radv_prefix_set_prefix p addr lenBad = Except.error Errno.EINVAL ∧
    sd_radv_prefix_set_prefix p addr 3 =
      Except.ok { p with opt := { p.opt with in6_addr := addr, prefixlen := 3 } } ∧
    sd_radv_prefix_set_prefix p addr 128 =
      Except.ok { p with opt := { p.opt with in6_addr := addr, prefixlen := 128 } } ∧
    sd_radv_prefix_set_prefix p addr 100 =
      Except.ok { p with opt := { p.opt with in6_addr := addr, prefixlen := 100 } } ∧
    sd_radv_prefix_set_prefix p addr len =
      Except.ok { p with opt := { p.opt with in6_addr := addr, prefixlen := len } } ∧
    radv_prefix_len_unusual_logged 100 = true ∧
    radv_prefix_len_unusual_logged 2 = false ∧
    radv_prefix_len_unusual_logged 129 = false ∧
    radv_prefix_len_unusual_logged 64 = false := by
  refine ⟨rfl, rfl, ?_, rfl, rfl, rfl, ?_, by decide, by decide, by decide, by decide⟩
  · unfold sd_radv_prefix_set_prefix
    rw [if_pos hbad]
  · unfold sd_radv_prefix_set_prefix
    rw [if_neg]
    rintro (hcase | hcase) <;> omega

/-- Witness for C7: length 2 rejected, 130 rejected, 64 stored. -/
theorem C7_witness :
    sd_radv_prefix_set_prefix sd_radv_prefix_new addr_2001_db8 2 = Except.error Errno.EINVAL ∧
    sd_radv_prefix_set_prefix sd_radv_prefix_new addr_2001_db8 130 = Except.error Errno.EINVAL ∧
    sd_radv_prefix_set_prefix sd_radv_prefix_new addr_2001_db8 64 =
      Except.ok { sd_radv_prefix_new with
        opt := { sd_radv_prefix_new.opt with in6_addr := addr_2001_db8, prefixlen := 64 } } ∧
    radv_prefix_len_unusual_logged 100 = true := by
  have h := C7_set_prefix_length_validation sd_radv_prefix_new addr_2001_db8 64 130
    (by decide) (by decide) (by decide)
  exact ⟨h.1, h.2.2.1, h.2.2.2.2.2.2.1, h.2.2.2.2.2.2.2.1⟩

/-- C8 counterexample: on a fresh Idle session the interface-index setter
accepts 0 — it returns success and stores 0 instead of rejecting it as an
invalid argument. -/
theorem C8_counterexample_ifindex_zero_accepted :
    sd_radv_new.state = RadvState.idle ∧
    sd_radv_set_ifindex sd_radv_new 0 = Except.ok { sd_radv_new with ifindex := 0 } ∧
    sd_radv_set_ifindex sd_radv_new 0 ≠ Except.error Errno.EINVAL := by decide

/-- C8 (amended): while Idle the interface-index setter accepts every
value of -1 or above — including 0, which it stores — and rejects only
values below -1 with `-EINVAL`; 0 is treated as invalid not by the
setter but by `sd_radv_start`, which demands a strictly positive
index. -/
theorem C8_ifindex_setter_range (ra raAny : SdRadv) (i j : Int)
    (hidle : ra.state = RadvState.idle) (hi : -1 ≤ i) (hj : j < -1) :
    sd_radv_set_ifindex ra i = Except.ok { ra with ifindex := i } ∧
    sd_radv_set_ifindex ra 0 = Except.ok { ra with ifindex := 0 } ∧
    sd_radv_set_ifindex raAny j = Except.error Errno.EINVAL ∧
    ( raAny.ifindex = 0 → sd_radv_start raAny = Except.error Errno.EINVAL) := by
  refine ⟨?_, ?_, ?_, ?_⟩
  · simp [sd_radv_set_ifindex, hidle, hi]
  · simp [sd_radv_set_ifindex, hidle]
  · simp [sd_radv_set_ifindex, not_le.mpr hj]
  · intro h0
    rcases hev : raAny.event with _ | e
    · simp [sd_radv_start, hev]
    · simp [sd_radv_start, hev, h0]

/-- Witness for C8: 5 and -1 accepted, -2 rejected, and start on a
session with interface index 0 fails even with an event attached. -/
theorem C8_witness :
    sd_radv_set_ifindex sd_radv_new 5 = Except.ok { sd_radv_new with ifindex := 5 } ∧
    sd_radv_set_ifindex sd_radv_new 0 = Except.ok { sd_radv_new with ifindex := 0 } ∧
    sd_radv_set_ifindex sd_radv_new (-2) = Except.error Errno.EINVAL ∧
    sd_radv_start { sd_radv_new with event := some 0 } = Except.error Errno.EINVAL := by
  have h := C8_ifindex_setter_range sd_radv_new { sd_radv_new with event := some 0 } 5 (-2)
    rfl (by decide) (by decide)
  exact ⟨h.1, h.2.1, h.2.2.1, h.2.2.2 rfl⟩
